/-
Verification of the NUST-Shuttles live-tracking core: a shallow embedding of
the feed normalizer (`subscribeToShuttles` in src/services/firebase.js), the
activity classifier (`isShuttleActive`), the route-path extractor
(`formatRoutePath` in the useShuttles hook), and the selection / nearest-vehicle
controller (`handleShuttleSelect`, `handleFindNearest`, `calculateDistance` in
src/App.jsx), together with theorems settling the behavioural claims about them.

Modelling conventions:
- JavaScript numbers are modelled by ℚ (the code never relies on rounding;
  the haversine distance, which needs transcendental functions, is modelled
  over ℝ and used abstractly).
- A possibly-absent string field is `Option String`; `parseFloat` / `parseInt`
  are modelled by explicit parsers returning `Option ℚ` / `Option Int`,
  with `none` standing for `NaN`.
- Route-point coordinate fields are dynamically typed in the feed (they may be
  strings or numbers); they are modelled by `JsVal` with JS truthiness.
- JS `x || y` on these values is `jsOr`; `parseFloat(x) || 0` is
  `jsParseFloatOr0`.
-/

import Mathlib

namespace NustShuttles

/-! ## The embedded program, derived definitions, and sample inputs -/

/-- Digits of a decimal numeral to a natural number, most significant first. -/
def digitsToNat (ds : List Char) : Nat :=
  ds.foldl (fun n c => n * 10 + (c.toNat - 48)) 0

/-- Model of JavaScript `parseFloat(s)`: skip leading spaces, optional sign,
integer part, optional fractional part, optional exponent; `none` models
`NaN` (no digits found). The longest valid numeric prefix is parsed and the
rest of the string is ignored, as in JS. The value is assembled with integer
arithmetic and a single `mkRat`. -/
def parseFloatJs (s : String) : Option ℚ :=
  let cs := s.toList.dropWhile (fun c => c = ' ')
  let signAndRest : Bool × List Char :=
    match cs with
    | '-' :: t => (true, t)
    | '+' :: t => (false, t)
    | t => (false, t)
  let neg := signAndRest.1
  let intPart := signAndRest.2.takeWhile Char.isDigit
  let afterInt := signAndRest.2.dropWhile Char.isDigit
  let fracAndRest : List Char × List Char :=
    match afterInt with
    | '.' :: t => (t.takeWhile Char.isDigit, t.dropWhile Char.isDigit)
    | t => ([], t)
  let fracPart := fracAndRest.1
  if intPart.isEmpty ∧ fracPart.isEmpty then none
  else
    let exp : Int :=
      match fracAndRest.2 with
      | 'e' :: t | 'E' :: t =>
        let esignAndRest : Int × List Char :=
          match t with
          | '-' :: u => (-1, u)
          | '+' :: u => (1, u)
          | u => (1, u)
        let eds := esignAndRest.2.takeWhile Char.isDigit
        if eds.isEmpty then 0 else esignAndRest.1 * (digitsToNat eds : Int)
      | _ => 0
    let mantNum : Nat := digitsToNat intPart * 10 ^ fracPart.length + digitsToNat fracPart
    let v : ℚ :=
      if 0 ≤ exp then
        mkRat (mantNum * 10 ^ exp.toNat : Nat) (10 ^ fracPart.length)
      else
        mkRat (mantNum : Nat) (10 ^ fracPart.length * 10 ^ (-exp).toNat)
    some (if neg then -v else v)

/-- Model of JavaScript `parseInt(s, 10)`: skip leading spaces, optional sign,
leading decimal digits; `none` models `NaN`. -/
def parseIntJs (s : String) : Option Int :=
  let cs := s.toList.dropWhile (fun c => c = ' ')
  let signAndRest : Bool × List Char :=
    match cs with
    | '-' :: t => (true, t)
    | '+' :: t => (false, t)
    | t => (false, t)
  let ds := signAndRest.2.takeWhile Char.isDigit
  if ds.isEmpty then none
  else
    let n : Int := (digitsToNat ds : Int)
    some (if signAndRest.1 then -n else n)

/-- A dynamically typed JavaScript value as it occurs in route-point coordinate
fields of the feed: absent (`undefined`), a string, or a number. -/
inductive JsVal where
  | undef : JsVal
  | str (s : String) : JsVal
  | num (q : ℚ) : JsVal
deriving DecidableEq

/-- JavaScript truthiness of a `JsVal`: `undefined` is falsy, a string is
truthy iff non-empty, a number is truthy iff non-zero. -/
def JsVal.truthy : JsVal → Bool
  | .undef => false
  | .str s => s ≠ ""
  | .num q => q ≠ 0

/-- JavaScript `a || b`: returns `a` when truthy, else `b`. -/
def jsOr (a b : JsVal) : JsVal :=
  if a.truthy then a else b

/-- `parseFloat` applied to a dynamic value: a number parses to itself,
a string via `parseFloatJs`, `undefined` to `NaN` (`none`). -/
def parseFloatVal : JsVal → Option ℚ
  | .undef => none
  | .str s => parseFloatJs s
  | .num q => some q

/-- JavaScript `parseFloat(s) || 0` on a possibly-absent string field:
an absent or unparseable (`NaN`) field degrades to 0, and a parsed 0
stays 0 (`0 || 0` is 0). -/
def jsParseFloatOr0 (s : Option String) : ℚ :=
  match s with
  | none => 0
  | some s => (parseFloatJs s).getD 0

/-- One point of a route segment's path as delivered by the feed: the feed may
use the `lat`/`lng` or the `latitude`/`longitude` field names, and each field
may be absent, a string, or a number. -/
structure RoutePoint where
  lat : JsVal
  latitude : JsVal
  lng : JsVal
  longitude : JsVal
deriving DecidableEq

/-- One route segment from the feed: display labels (JS keys `from`, `to`,
`title`) and a path, `none` standing for an absent or non-array `path`.
An element `none` of the path list stands for a null/absent entry. -/
structure Segment where
  fromLabel : Option String
  toLabel : Option String
  title : Option String
  path : Option (List (Option RoutePoint))
deriving DecidableEq

/-- A raw shuttle entry of the feed payload, before normalization. All scalar
fields arrive as strings when present. Note both the misspelled upstream
`logitude` key and the correctly spelled `longitude` key are modelled, since
both may occur in an entry. -/
structure RawShuttle where
  latitude : Option String
  logitude : Option String
  longitude : Option String
  prevLat : Option String
  prevLong : Option String
  speed : Option String
  activeStatus : Option String
  lastActiveTime : Option String
  busNumber : Option String
  route : Option (List (Option Segment))
deriving DecidableEq

/-- A normalized shuttle record, as produced for each entry by the `onValue`
callback of `subscribeToShuttles` (src/services/firebase.js). Scalar position
and speed fields are parsed numbers; the remaining fields pass through the
object spread unchanged. -/
structure Shuttle where
  id : String
  latitude : ℚ
  longitude : ℚ
  prevLat : ℚ
  prevLong : ℚ
  speed : ℚ
  activeStatus : Option String
  lastActiveTime : Option String
  busNumber : Option String
  route : Option (List (Option Segment))
deriving DecidableEq

/-- Normalization of one feed entry, from `subscribeToShuttles`:
`{ id, ...shuttle, latitude: parseFloat(shuttle.latitude) || 0,
longitude: parseFloat(shuttle.logitude) || 0, prevLat: ..., prevLong: ...,
speed: ... }`. The explicit properties come after the spread, so the
normalized `longitude` is always computed from the misspelled `logitude`
key; a raw `longitude` key carried in by the spread is overwritten. -/
def normalizeShuttleEntry (id : String) (s : RawShuttle) : Shuttle :=
  { id := id
    latitude := jsParseFloatOr0 s.latitude
    longitude := jsParseFloatOr0 s.logitude
    prevLat := jsParseFloatOr0 s.prevLat
    prevLong := jsParseFloatOr0 s.prevLong
    speed := jsParseFloatOr0 s.speed
    activeStatus := s.activeStatus
    lastActiveTime := s.lastActiveTime
    busNumber := s.busNumber
    route := s.route }

/-- The full payload handling of the `onValue` callback: a present payload is
an ordered list of `(id, entry)` pairs (the order of `Object.entries`),
mapped through `normalizeShuttleEntry`; an absent root (`data` null) yields
the empty list. -/
def normalizeFeed (data : Option (List (String × RawShuttle))) : List Shuttle :=
  match data with
  | none => []
  | some entries => entries.map (fun e => normalizeShuttleEntry e.1 e.2)

/-- Model of JavaScript `s.toLowerCase()` for the ASCII status strings of the
feed. -/
def toLowerJs (s : String) : String :=
  String.mk (s.toList.map Char.toLower)

/-- The first block of `isShuttleActive` (src/services/firebase.js):
`if (shuttle.activeStatus) { const status = shuttle.activeStatus.toLowerCase();
if (status === 'active' || status === 'true' || status === '1') return true; }`
— JS truthiness of the field, then a lower-cased comparison. -/
def statusHitCode (s : Shuttle) : Bool :=
  match s.activeStatus with
  | some st => st ≠ "" &&
      (toLowerJs st == "active" || toLowerJs st == "true" || toLowerJs st == "1")
  | none => false

/-- The second block of `isShuttleActive`: `if (shuttle.lastActiveTime &&
shuttle.lastActiveTime !== '0') { const timestamp = parseInt(..., 10);
if (!isNaN(timestamp)) return (now - lastActive) < fiveMinutes; } return false;`. -/
def timestampActive (now : Int) (s : Shuttle) : Bool :=
  match s.lastActiveTime with
  | some t =>
    if t ≠ "" && t ≠ "0" then
      match parseIntJs t with
      | some ts => decide ((now - ts) < 5 * 60 * 1000)
      | none => false
    else false
  | none => false

/-- The activity classifier `isShuttleActive` (src/services/firebase.js),
evaluated at wall-clock time `now` (epoch milliseconds): the status hint
forces active, otherwise freshness of the last-seen timestamp decides. -/
def isShuttleActive (now : Int) (s : Shuttle) : Bool :=
  if statusHitCode s then true else timestampActive now s

/-- The filter predicate of `formatRoutePath` (useShuttles hook):
`point && (point.lat || point.latitude) && (point.lng || point.longitude)`. -/
def usablePoint (p : Option RoutePoint) : Bool :=
  match p with
  | none => false
  | some pt => (jsOr pt.lat pt.latitude).truthy && (jsOr pt.lng pt.longitude).truthy

/-- The map step of `formatRoutePath`:
`[parseFloat(point.lat || point.latitude), parseFloat(point.lng || point.longitude)]`.
A component is `none` when the chosen field fails to parse (`NaN`). -/
def convertPoint (pt : RoutePoint) : Option ℚ × Option ℚ :=
  (parseFloatVal (jsOr pt.lat pt.latitude), parseFloatVal (jsOr pt.lng pt.longitude))

/-- `convertPoint` lifted to the `Option RoutePoint` elements that survive the
filter; the `none` case is unreachable after `usablePoint`. -/
def convertOptPoint (p : Option RoutePoint) : Option ℚ × Option ℚ :=
  match p with
  | none => (none, none)
  | some pt => convertPoint pt

/-- The segment scan of `formatRoutePath`: return the converted usable points
of the first segment that exists and carries an array `path`; keep scanning
otherwise. -/
def formatRoutePathSegs : List (Option Segment) → List (Option ℚ × Option ℚ)
  | [] => []
  | seg :: rest =>
    match seg with
    | some s =>
      match s.path with
      | some pts => (pts.filter usablePoint).map convertOptPoint
      | none => formatRoutePathSegs rest
    | none => formatRoutePathSegs rest

/-- `formatRoutePath(route)` from the useShuttles hook: an absent or non-array
route yields `[]`; otherwise the first path-bearing segment's usable points
are converted in order. -/
def formatRoutePath (route : Option (List (Option Segment))) : List (Option ℚ × Option ℚ) :=
  match route with
  | none => []
  | some segs => formatRoutePathSegs segs

/-- A processed shuttle as built by the useShuttles data callback:
`{ ...shuttle, isActive: isShuttleActive(shuttle), routePath: formatRoutePath(shuttle.route) }`. -/
structure ProcessedShuttle where
  base : Shuttle
  isActive : Bool
  routePath : List (Option ℚ × Option ℚ)
deriving DecidableEq

/-- Processing of one normalized record in the useShuttles data callback,
at wall-clock time `now`. -/
def processShuttle (now : Int) (s : Shuttle) : ProcessedShuttle :=
  { base := s
    isActive := isShuttleActive now s
    routePath := formatRoutePath s.route }

/-- The state held by the useShuttles hook: shuttle list, `loading`, `error`,
and the last-update time (`none` before the first update). -/
structure HookState where
  shuttles : List ProcessedShuttle
  loading : Bool
  error : Option String
  lastUpdated : Option Int
deriving DecidableEq

/-- Initial hook state: `useState([])`, `useState(true)`, `useState(null)`,
`useState(null)`. -/
def initialHookState : HookState :=
  { shuttles := [], loading := true, error := none, lastUpdated := none }

/-- The data callback passed by useShuttles to `subscribeToShuttles`: maps the
records through `processShuttle`, then sets `loading` false, refreshes
`lastUpdated`, and sets `error` to null. -/
def hookOnData (now : Int) (data : List Shuttle) (_st : HookState) : HookState :=
  { shuttles := data.map (processShuttle now)
    loading := false
    error := none
    lastUpdated := some now }

/-- An event delivered by the Firebase subscription: a value snapshot (whose
root may be absent) or a subscription error. -/
inductive FeedEvent where
  | value (data : Option (List (String × RawShuttle))) : FeedEvent
  | errorEvent (e : String) : FeedEvent

/-- One step of the subscription as wired in `subscribeToShuttles` together
with the useShuttles callback: a value event normalizes the payload and runs
the data callback; the error handler (`(error) => { console.error(...);
callback([]); }`) routes the error into the same data callback with an empty
list. -/
def subscribeStep (now : Int) (ev : FeedEvent) (st : HookState) : HookState :=
  match ev with
  | .value data => hookOnData now (normalizeFeed data) st
  | .errorEvent _ => hookOnData now [] st

/-- The selection state of the App component: `selectedShuttleId` and
`nearestShuttleId`, each `null` or a shuttle id. -/
structure SelectionState where
  selectedId : Option String
  nearestId : Option String
deriving DecidableEq

/-- Initial selection state: both `useState(null)`. -/
def initialSelection : SelectionState :=
  { selectedId := none, nearestId := none }

/-- `handleShuttleSelect(shuttleId)` from src/App.jsx: toggling off when the
same id is clicked (clearing both ids), otherwise selecting the id and
clearing `nearestShuttleId` unless the id is already the nearest one. -/
def handleShuttleSelect (shuttleId : Option String) (st : SelectionState) : SelectionState :=
  if shuttleId = st.selectedId then
    { selectedId := none, nearestId := none }
  else
    { selectedId := shuttleId
      nearestId := if shuttleId ≠ st.nearestId then none else st.nearestId }

/-- The map-background click handler (MapView): `if (selectedShuttleId)
onShuttleSelect(null)`. The guard is JS truthiness of the id string. -/
def handleMapClick (st : SelectionState) : SelectionState :=
  match st.selectedId with
  | some s => if s ≠ "" then handleShuttleSelect none st else st
  | none => st

/-- The outcome of one `handleFindNearest` run whose geolocation succeeded:
the early `alert('No active shuttles available')` return, a selected nearest
shuttle, or the silent fall-through when no candidate had a valid position. -/
inductive FindResult where
  | noActiveAlert : FindResult
  | selected (id : String) : FindResult
  | noCandidate : FindResult
deriving DecidableEq

/-- The position guard inside the `handleFindNearest` loop:
`shuttle.latitude && shuttle.longitude` (JS truthiness of the normalized
numbers, i.e. both non-zero). -/
def validPosition (s : ProcessedShuttle) : Bool :=
  s.base.latitude ≠ 0 && s.base.longitude ≠ 0

/-- The accumulator loop of `handleFindNearest`: `minDistance` starts at
`Infinity` and `nearestShuttle` at `null` (modelled jointly as `none`); each
active shuttle with a valid position whose distance is strictly below the
minimum becomes the new nearest. The distance function is abstracted as a
function into a linearly ordered type; the App instantiates it with the
haversine `calculateDistance` from the acquired user position. -/
def nearestLoop {α : Type} [LinearOrder α] (dist : ProcessedShuttle → α) :
    List ProcessedShuttle → Option (ProcessedShuttle × α) → Option (ProcessedShuttle × α)
  | [], acc => acc
  | s :: rest, acc =>
    if validPosition s then
      let d := dist s
      match acc with
      | none => nearestLoop dist rest (some (s, d))
      | some (b, m) =>
        if d < m then nearestLoop dist rest (some (s, d))
        else nearestLoop dist rest (some (b, m))
    else nearestLoop dist rest acc

/-- `handleFindNearest` from src/App.jsx, on the geolocation success path:
filter to active shuttles, alert-and-return when none, otherwise run the
minimum-distance loop; when a nearest shuttle was found set both
`selectedShuttleId` and `nearestShuttleId` to its id, otherwise leave the
selection state untouched. -/
def handleFindNearest {α : Type} [LinearOrder α] (dist : ProcessedShuttle → α)
    (shuttles : List ProcessedShuttle) (st : SelectionState) :
    FindResult × SelectionState :=
  let activeShuttles := shuttles.filter (·.isActive)
  if activeShuttles.isEmpty then
    (FindResult.noActiveAlert, st)
  else
    match nearestLoop dist activeShuttles none with
    | some (s, _) =>
      (FindResult.selected s.base.id,
       { selectedId := some s.base.id, nearestId := some s.base.id })
    | none => (FindResult.noCandidate, st)

/-- JavaScript `Math.atan2(y, x)`, modelled as the argument of the complex
number `x + y*i`. -/
noncomputable def atan2 (y x : ℝ) : ℝ :=
  Complex.arg (Complex.mk x y)

/-- `calculateDistance(lat1, lon1, lat2, lon2)` from src/App.jsx: the
haversine great-circle distance in kilometres on an Earth radius of 6371 km. -/
noncomputable def calculateDistance (lat1 lon1 lat2 lon2 : ℝ) : ℝ :=
  let R : ℝ := 6371
  let dLat := (lat2 - lat1) * Real.pi / 180
  let dLon := (lon2 - lon1) * Real.pi / 180
  let a :=
    Real.sin (dLat / 2) * Real.sin (dLat / 2) +
    Real.cos (lat1 * Real.pi / 180) * Real.cos (lat2 * Real.pi / 180) *
    Real.sin (dLon / 2) * Real.sin (dLon / 2)
  let c := 2 * atan2 (Real.sqrt a) (Real.sqrt (1 - a))
  R * c

/-- The distance function `handleFindNearest` actually uses once the user
position `(uLat, uLng)` has been acquired: haversine distance from the user
to the shuttle's normalized position. -/
noncomputable def shuttleDistance (uLat uLng : ℝ) (s : ProcessedShuttle) : ℝ :=
  calculateDistance uLat uLng (s.base.latitude : ℝ) (s.base.longitude : ℝ)

/-- The leftmost strict minimum of `b :: L` under `dist`: the value the
`handleFindNearest` accumulator holds after scanning `L` starting from
current best `b` (a later element replaces the best only when strictly
closer). -/
def pickMin {α : Type} [LinearOrder α] (dist : ProcessedShuttle → α) :
    ProcessedShuttle → List ProcessedShuttle → ProcessedShuttle
  | b, [] => b
  | b, s :: rest => if dist s < dist b then pickMin dist s rest else pickMin dist b rest

/-- The head-based description of the leftmost minimum of a whole list. -/
def leftmostMinOf {α : Type} [LinearOrder α] (dist : ProcessedShuttle → α) :
    List ProcessedShuttle → Option ProcessedShuttle
  | [] => none
  | b :: rest => some (pickMin dist b rest)

/-- `c` is the leftmost minimum of `L` under `dist`: it occurs in `L`, every
earlier element is strictly farther, and no element is closer. -/
def IsLeftmostMin {α : Type} [LinearOrder α] (dist : ProcessedShuttle → α)
    (L : List ProcessedShuttle) (c : ProcessedShuttle) : Prop :=
  (∃ pre post, L = pre ++ c :: post ∧ ∀ x ∈ pre, dist c < dist x) ∧
  ∀ x ∈ L, dist c ≤ dist x

/-- A raw feed entry with every field absent. -/
def emptyRaw : RawShuttle :=
  { latitude := none, logitude := none, longitude := none, prevLat := none
    prevLong := none, speed := none, activeStatus := none, lastActiveTime := none
    busNumber := none, route := none }

/-- The scenario entry of the spec: latitude "33.64", misspelled longitude
"72.98", speed "12", activeStatus "active". -/
def rawS1 : RawShuttle :=
  { emptyRaw with latitude := some "33.64", logitude := some "72.98"
                  speed := some "12", activeStatus := some "active" }

/-- A raw entry carrying both the misspelled and the correctly spelled
longitude key, with different values. -/
def rawBothKeys : RawShuttle :=
  { emptyRaw with logitude := some "10", longitude := some "20" }

/-- A raw entry with a negative upstream speed. -/
def rawNegSpeed : RawShuttle :=
  { emptyRaw with speed := some "-5" }

/-- An explicitly active raw entry with no position fields (normalizing to
position (0,0)). -/
def rawActiveOrigin : RawShuttle :=
  { emptyRaw with activeStatus := some "active" }

/-- A normalized record whose status hint is a case variant of "active". -/
def shuttleActiveStatus : Shuttle :=
  normalizeShuttleEntry "s1" { emptyRaw with activeStatus := some "Active" }

/-- A normalized record with no status hint and a parseable timestamp. -/
def shuttleFresh : Shuttle :=
  normalizeShuttleEntry "s2" { emptyRaw with lastActiveTime := some "100" }

/-- The status condition in the specification's words: the status hint
case-insensitively equals "active", "true", or "1". -/
def specStatusHit (s : Shuttle) : Bool :=
  match s.activeStatus with
  | some st => toLowerJs st == "active" || toLowerJs st == "true" || toLowerJs st == "1"
  | none => false

/-- The timestamp condition in the specification's words: `lastActiveTime`
present (truthy), not the string "0", and parsing as an integer; yields the
parsed epoch-milliseconds value. -/
def specTimestamp (s : Shuttle) : Option Int :=
  match s.lastActiveTime with
  | some t => if t ≠ "" && t ≠ "0" then parseIntJs t else none
  | none => none

/-- A segment that contributes no path to the scan of `formatRoutePath`:
absent (`null`) or with an absent/non-array `path`. -/
def segNoPath (seg : Option Segment) : Bool :=
  match seg with
  | none => true
  | some s => s.path.isNone

/-- `route` is a present route whose first path-bearing segment carries
exactly the points `pts`. -/
def FirstPath (route : Option (List (Option Segment)))
    (pts : List (Option RoutePoint)) : Prop :=
  ∃ pre seg post, route = some (pre ++ some seg :: post) ∧
    (∀ x ∈ pre, segNoPath x = true) ∧ seg.path = some pts

/-- A coordinate field that is not string-typed: absent or a number. -/
def numericVal : JsVal → Bool
  | .undef => true
  | .str _ => false
  | .num _ => true

/-- A route point whose four coordinate fields are all non-string. -/
def numericPoint (pt : RoutePoint) : Bool :=
  numericVal pt.lat && numericVal pt.latitude &&
    numericVal pt.lng && numericVal pt.longitude

/-- `numericPoint` lifted to possibly-null path entries. -/
def numericOptPoint (p : Option RoutePoint) : Bool :=
  match p with
  | some pt => numericPoint pt
  | none => true

/-- A numeric sample route point at (33, 72). -/
def ptA : RoutePoint :=
  { lat := .num 33, latitude := .undef, lng := .num 72, longitude := .undef }

/-- A numeric sample route point at (34, 73). -/
def ptB : RoutePoint :=
  { lat := .num 34, latitude := .undef, lng := .num 73, longitude := .undef }

/-- A point whose latitude arrives as the string "0" (truthy in JS) and whose
longitude arrives as the string "5". -/
def ptStrZero : RoutePoint :=
  { lat := .str "0", latitude := .undef, lng := .str "5", longitude := .undef }

/-- A route with one segment whose path holds exactly one usable point. -/
def routeOnePoint : Option (List (Option Segment)) :=
  some [some { fromLabel := none, toLabel := none, title := none, path := some [some ptA] }]

/-- The two-point segment of `routeTwoPoints`. -/
def segTwoPoints : Segment :=
  { fromLabel := none, toLabel := none, title := none, path := some [some ptA, some ptB] }

/-- A route with a null leading segment, then a two-point segment. -/
def routeTwoPoints : Option (List (Option Segment)) :=
  some [none, some segTwoPoints]

/-- A route whose only point carries the string-typed coordinates of
`ptStrZero`. -/
def routeStrZero : Option (List (Option Segment)) :=
  some [some { fromLabel := none, toLabel := none, title := none, path := some [some ptStrZero] }]

/-- The selection states reachable in the App: from the initial state, via
vehicle clicks (`handleShuttleSelect` with an id or null), map-background
clicks, and completed `handleFindNearest` runs (with the haversine distance
from any acquired user position, over any snapshot). -/
inductive Reachable : SelectionState → Prop where
  | init : Reachable initialSelection
  | select (id : Option String) {st : SelectionState} :
      Reachable st → Reachable (handleShuttleSelect id st)
  | mapClick {st : SelectionState} :
      Reachable st → Reachable (handleMapClick st)
  | findNearest (uLat uLng : ℝ) (shuttles : List ProcessedShuttle)
      {st : SelectionState} :
      Reachable st →
      Reachable (handleFindNearest (shuttleDistance uLat uLng) shuttles st).2

/-- A processed record that is active (explicit status hint) but sits at the
invalid position (0,0), built through the full normalization pipeline. -/
def pOrigin : ProcessedShuttle :=
  processShuttle 0 (normalizeShuttleEntry "s1" rawActiveOrigin)

/-- A processed record from the spec's scenario entry: active, at position
(33.64, 72.98). -/
def pS1 : ProcessedShuttle :=
  processShuttle 0 (normalizeShuttleEntry "s1" rawS1)

/-! ## Supporting lemmas and claim theorems -/

/-- The nearest loop, started on a best-so-far `b`, computes `pickMin` over the
valid-position elements of the remaining list. -/
lemma nearestLoop_some {α : Type} [LinearOrder α] (dist : ProcessedShuttle → α) :
    ∀ (l : List ProcessedShuttle) (b : ProcessedShuttle),
      nearestLoop dist l (some (b, dist b)) =
        some (pickMin dist b (l.filter validPosition),
              dist (pickMin dist b (l.filter validPosition)))
  | [], _ => rfl
  | s :: rest, b => by
    by_cases hv : validPosition s
    · by_cases hd : dist s < dist b
      · simp [nearestLoop, hv, hd, pickMin, List.filter_cons, nearestLoop_some dist rest s]
      · simp [nearestLoop, hv, hd, pickMin, List.filter_cons, nearestLoop_some dist rest b]
    · simp [nearestLoop, hv, List.filter_cons, nearestLoop_some dist rest b]

/-- The nearest loop started from `null` / `Infinity` computes the leftmost
minimum of the valid-position elements. -/
lemma nearestLoop_none {α : Type} [LinearOrder α] (dist : ProcessedShuttle → α) :
    ∀ l : List ProcessedShuttle,
      nearestLoop dist l none =
        (leftmostMinOf dist (l.filter validPosition)).map (fun c => (c, dist c))
  | [] => rfl
  | s :: rest => by
    by_cases hv : validPosition s
    · simp [nearestLoop, hv, List.filter_cons, leftmostMinOf, nearestLoop_some dist rest s]
    · simp [nearestLoop, hv, List.filter_cons, nearestLoop_none dist rest]

/-- `pickMin` returns a value at least as close as the starting best and as
any scanned element. -/
lemma pickMin_le {α : Type} [LinearOrder α] (dist : ProcessedShuttle → α) :
    ∀ (L : List ProcessedShuttle) (b : ProcessedShuttle),
      dist (pickMin dist b L) ≤ dist b ∧ ∀ x ∈ L, dist (pickMin dist b L) ≤ dist x
  | [], b => ⟨le_refl _, by simp⟩
  | s :: rest, b => by
    by_cases hd : dist s < dist b
    · have ih := pickMin_le dist rest s
      refine ⟨?_, ?_⟩
      · simpa [pickMin, hd] using le_trans ih.1 (le_of_lt hd)
      · intro x hx
        rcases List.mem_cons.mp hx with rfl | hx
        · simpa [pickMin, hd] using ih.1
        · simpa [pickMin, hd] using ih.2 x hx
    · have ih := pickMin_le dist rest b
      refine ⟨?_, ?_⟩
      · simpa [pickMin, hd] using ih.1
      · intro x hx
        rcases List.mem_cons.mp hx with rfl | hx
        · simpa [pickMin, hd] using le_trans ih.1 (not_lt.mp hd)
        · simpa [pickMin, hd] using ih.2 x hx

/-- `pickMin b L` sits at a position of `b :: L` all of whose predecessors are
strictly farther: this is the first-encountered tie-break of the loop. -/
lemma pickMin_leftmost {α : Type} [LinearOrder α] (dist : ProcessedShuttle → α) :
    ∀ (L : List ProcessedShuttle) (b : ProcessedShuttle),
      ∃ pre post, b :: L = pre ++ pickMin dist b L :: post ∧
        ∀ x ∈ pre, dist (pickMin dist b L) < dist x
  | [], b => ⟨[], [], by simp [pickMin], by simp⟩
  | s :: rest, b => by
    by_cases hd : dist s < dist b
    · obtain ⟨pre, post, heq, hpre⟩ := pickMin_leftmost dist rest s
      refine ⟨b :: pre, post, ?_, ?_⟩
      · simpa [pickMin, hd] using heq
      · intro x hx
        rcases List.mem_cons.mp hx with rfl | hx
        · have hle := (pickMin_le dist rest s).1
          simpa [pickMin, hd] using lt_of_le_of_lt hle hd
        · simpa [pickMin, hd] using hpre x hx
    · obtain ⟨pre, post, heq, hpre⟩ := pickMin_leftmost dist rest b
      have hpm : pickMin dist b (s :: rest) = pickMin dist b rest := by
        simp [pickMin, hd]
      cases pre with
      | nil =>
        simp only [List.nil_append] at heq
        injection heq with hb hpost
        refine ⟨[], s :: rest, ?_, by simp⟩
        rw [hpm, ← hb]
        simp
      | cons p pre' =>
        simp only [List.cons_append] at heq
        injection heq with hbp hrest
        refine ⟨b :: s :: pre', post, ?_, ?_⟩
        · rw [hpm]
          simpa using congrArg (fun l => b :: s :: l) hrest
        · intro x hx
          have hcb : dist (pickMin dist b rest) < dist b := by
            have hp := hpre p (List.mem_cons_self _ _)
            rwa [← hbp] at hp
          rcases List.mem_cons.mp hx with rfl | hx
          · simpa [hpm] using hcb
          · rcases List.mem_cons.mp hx with rfl | hx
            · simpa [hpm] using lt_of_lt_of_le hcb (not_lt.mp hd)
            · simpa [hpm] using hpre x (List.mem_cons_of_mem _ hx)

/-- Composing the two filters of `handleFindNearest` (active, then valid
position inside the loop) gives the candidate set of the specification. -/
lemma active_valid_filter (l : List ProcessedShuttle) :
    (l.filter (·.isActive)).filter validPosition =
      l.filter (fun s => s.isActive && validPosition s) := by
  induction l with
  | nil => rfl
  | cons s rest ih =>
    by_cases ha : s.isActive
    · by_cases hv : validPosition s <;>
        simp [List.filter_cons, ha, hv, ih]
    · simp [List.filter_cons, ha, ih]

/-- C2 counterexample: when both the misspelled `logitude` key and the
correctly spelled `longitude` key are present, the normalized longitude is the
parsed misspelled key (10), not the parsed correct key (20) — the explicit
property written after the object spread overwrites the spread-in value, so
the correct key is never preferred. -/
theorem longitude_correct_key_ignored_cex :
    rawBothKeys.logitude = some "10" ∧ rawBothKeys.longitude = some "20" ∧
    (normalizeShuttleEntry "s1" rawBothKeys).longitude = 10 ∧
    (normalizeShuttleEntry "s1" rawBothKeys).longitude ≠ 20 := by
  refine ⟨rfl, rfl, by decide, by decide⟩

/-- C2 (amended): the normalizer takes the misspelled `logitude` key as the
sole source of the record's longitude (parse-or-default-to-zero); a correctly
spelled `longitude` key, when present, has no effect on the result. -/
theorem longitude_from_misspelled_key (id : String) (s : RawShuttle) (v : Option String) :
    (normalizeShuttleEntry id s).longitude = jsParseFloatOr0 s.logitude ∧
    (normalizeShuttleEntry id s).longitude =
      (normalizeShuttleEntry id { s with longitude := v }).longitude :=
  ⟨rfl, rfl⟩

/-- C8 counterexample: a parseable negative upstream speed propagates into the
normalized record, so the speed field is not always non-negative. -/
theorem speed_negative_cex :
    rawNegSpeed.speed = some "-5" ∧
    (normalizeShuttleEntry "s1" rawNegSpeed).speed = -5 ∧
    (normalizeShuttleEntry "s1" rawNegSpeed).speed < 0 := by
  refine ⟨rfl, by decide, by decide⟩

/-- C8 (amended): the normalized speed equals 0 whenever the upstream speed
field is absent or unparseable, and equals the parsed upstream value when it
parses — including negative values, which pass through unchanged. -/
theorem speed_parse_or_zero (id : String) (s : RawShuttle) :
    (s.speed = none → (normalizeShuttleEntry id s).speed = 0) ∧
    (∀ t, s.speed = some t → parseFloatJs t = none →
      (normalizeShuttleEntry id s).speed = 0) ∧
    (∀ t q, s.speed = some t → parseFloatJs t = some q →
      (normalizeShuttleEntry id s).speed = q) := by
  refine ⟨?_, ?_, ?_⟩
  · intro h
    simp [normalizeShuttleEntry, jsParseFloatOr0, h]
  · intro t ht hp
    simp [normalizeShuttleEntry, jsParseFloatOr0, ht, hp]
  · intro t q ht hp
    simp [normalizeShuttleEntry, jsParseFloatOr0, ht, hp]

/-- C8 witness: the absent-speed and parsed-speed cases at concrete entries. -/
theorem speed_parse_or_zero_witness :
    (normalizeShuttleEntry "s1" emptyRaw).speed = 0 ∧
    (normalizeShuttleEntry "s1" rawS1).speed = 12 :=
  ⟨(speed_parse_or_zero "s1" emptyRaw).1 rfl,
   (speed_parse_or_zero "s1" rawS1).2.2 "12" 12 rfl (by decide)⟩

/-- C9: on the subscription error path the code routes the failure into the
ordinary data callback with an empty list (`callback([])`), so the hook state
after an error event has `error` equal to `none`, an empty shuttle list, and
`loading` false — the error output is never set, and the user-facing retry
affordance (which renders only when `error` is non-null) never appears. This
contradicts the claim (and the hook's own documentation). -/
theorem feedError_leaves_error_unset (now : Int) (e : String) (st : HookState) :
    (subscribeStep now (FeedEvent.errorEvent e) st).error = none ∧
    (subscribeStep now (FeedEvent.errorEvent e) st).shuttles = [] ∧
    (subscribeStep now (FeedEvent.errorEvent e) st).loading = false :=
  ⟨rfl, rfl, rfl⟩

/-- C7: `handleShuttleSelect` with the currently selected id clears both ids;
with a different id it selects that id, clearing `nearestShuttleId` unless the
id already equals it, in which case the nearest badge is preserved; and from
any unselected state, selecting the same id twice returns the selection to
unset. -/
theorem handleShuttleSelect_toggle (id : Option String) (st : SelectionState) :
    (id = st.selectedId →
      handleShuttleSelect id st = { selectedId := none, nearestId := none }) ∧
    (id ≠ st.selectedId → id ≠ st.nearestId →
      handleShuttleSelect id st = { selectedId := id, nearestId := none }) ∧
    (id ≠ st.selectedId → id = st.nearestId →
      handleShuttleSelect id st = { selectedId := id, nearestId := st.nearestId }) ∧
    (st.selectedId = none →
      (handleShuttleSelect id (handleShuttleSelect id st)).selectedId = none) := by
  refine ⟨?_, ?_, ?_, ?_⟩
  · intro h
    simp [handleShuttleSelect, h]
  · intro h hn
    simp [handleShuttleSelect, h, hn]
  · intro h hn
    subst hn
    simp [handleShuttleSelect, h]
  · intro h
    by_cases h1 : id = st.selectedId
    · rw [h] at h1
      subst h1
      simp [handleShuttleSelect, h]
    · by_cases h2 : id ≠ st.nearestId <;>
        simp [handleShuttleSelect, h1, h2]

/-- C7 witness: toggling off a selected shuttle, and the double-select
scenario from the initial state. -/
theorem handleShuttleSelect_toggle_witness :
    handleShuttleSelect (some "s1") { selectedId := some "s1", nearestId := some "s1" } =
      { selectedId := none, nearestId := none } ∧
    (handleShuttleSelect (some "s1")
      (handleShuttleSelect (some "s1") initialSelection)).selectedId = none :=
  ⟨(handleShuttleSelect_toggle (some "s1")
      { selectedId := some "s1", nearestId := some "s1" }).1 rfl,
   (handleShuttleSelect_toggle (some "s1") initialSelection).2.2.2 rfl⟩

/-- The code's truthiness guard on `activeStatus` is redundant with the
lower-cased comparison (an empty string matches none of the status words), so
the code's first-block condition coincides with the specification's. -/
lemma statusHitCode_eq_spec (s : Shuttle) : statusHitCode s = specStatusHit s := by
  cases hst : s.activeStatus with
  | none => simp [statusHitCode, specStatusHit, hst]
  | some st =>
    by_cases hs0 : st = ""
    · subst hs0
      simp [statusHitCode, specStatusHit, hst]
      decide
    · simp [statusHitCode, specStatusHit, hst, hs0]

/-- The timestamp block of the classifier computes the freshness test on
exactly the timestamps described by `specTimestamp`. -/
lemma timestampActive_eq (now : Int) (s : Shuttle) :
    timestampActive now s =
      match specTimestamp s with
      | some ts => decide (now - ts < 5 * 60 * 1000)
      | none => false := by
  cases hlt : s.lastActiveTime with
  | none => simp [timestampActive, specTimestamp, hlt]
  | some t =>
    simp only [timestampActive, specTimestamp, hlt]
    by_cases htz : (t ≠ "" && t ≠ "0") = true
    · rw [if_pos htz, if_pos htz]
    · rw [if_neg htz, if_neg htz]

/-- C5: the classifier follows the claimed policy in order — a matching status
hint forces active; otherwise a usable timestamp makes the record active
exactly when the elapsed time is below 5 minutes (with a future timestamp,
`ts > now`, always active); otherwise the record is inactive. -/
theorem isShuttleActive_policy (now : Int) (s : Shuttle) :
    (specStatusHit s = true → isShuttleActive now s = true) ∧
    (specStatusHit s = false → ∀ ts, specTimestamp s = some ts →
      (isShuttleActive now s = true ↔ now - ts < 5 * 60 * 1000)) ∧
    (specStatusHit s = false → specTimestamp s = none →
      isShuttleActive now s = false) ∧
    (specStatusHit s = false → ∀ ts, specTimestamp s = some ts → now < ts →
      isShuttleActive now s = true) := by
  have hcode := statusHitCode_eq_spec s
  have hts := timestampActive_eq now s
  refine ⟨?_, ?_, ?_, ?_⟩
  · intro h
    simp [isShuttleActive, hcode, h]
  · intro h0 ts h1
    rw [h1] at hts
    simp [isShuttleActive, hcode, h0, hts]
  · intro h0 h1
    rw [h1] at hts
    simp [isShuttleActive, hcode, h0, hts]
  · intro h0 ts h1 hfut
    rw [h1] at hts
    simp [isShuttleActive, hcode, h0, hts]
    omega

/-- C5 witness: a case-variant status hint forces active, and with no hint a
timestamp 100 ms in the past at time 200 is active iff within 5 minutes. -/
theorem isShuttleActive_policy_witness :
    (specStatusHit shuttleActiveStatus = true ∧
      isShuttleActive 0 shuttleActiveStatus = true) ∧
    (specStatusHit shuttleFresh = false ∧ specTimestamp shuttleFresh = some 100 ∧
      (isShuttleActive 200 shuttleFresh = true ↔ (200 : Int) - 100 < 5 * 60 * 1000)) :=
  ⟨⟨by decide, (isShuttleActive_policy 0 shuttleActiveStatus).1 (by decide)⟩,
   ⟨by decide, by decide,
    (isShuttleActive_policy 200 shuttleFresh).2.1 (by decide) 100 (by decide)⟩⟩

/-- The segment scan skips the pathless prefix and returns the converted
usable points of the first path-bearing segment. -/
lemma formatRoutePathSegs_skip :
    ∀ (pre : List (Option Segment)) (seg : Segment) (post : List (Option Segment))
      (pts : List (Option RoutePoint)),
      (∀ x ∈ pre, segNoPath x = true) → seg.path = some pts →
      formatRoutePathSegs (pre ++ some seg :: post) =
        (pts.filter usablePoint).map convertOptPoint
  | [], seg, post, pts, _, hpath => by
    simp [formatRoutePathSegs, hpath]
  | x :: pre, seg, post, pts, hpre, hpath => by
    have hx : segNoPath x = true := hpre x (List.mem_cons_self _ _)
    have ih := formatRoutePathSegs_skip pre seg post pts
      (fun y hy => hpre y (List.mem_cons_of_mem _ hy)) hpath
    cases x with
    | none => simpa [formatRoutePathSegs] using ih
    | some sx =>
      have hnone : sx.path = none := by
        simpa [segNoPath, Option.isNone_iff_eq_none] using hx
      simpa [formatRoutePathSegs, hnone] using ih

/-- On a route selected by `FirstPath`, the extractor returns the usable
points of that segment, converted, in their original order. -/
lemma formatRoutePath_of_firstPath {route : Option (List (Option Segment))}
    {pts : List (Option RoutePoint)} (h : FirstPath route pts) :
    formatRoutePath route = (pts.filter usablePoint).map convertOptPoint := by
  obtain ⟨pre, seg, post, hroute, hpre, hpath⟩ := h
  rw [hroute]
  exact formatRoutePathSegs_skip pre seg post pts hpre hpath

/-- C3 counterexample: on a route whose single segment's path has exactly one
usable point, `formatRoutePath` returns a singleton, not the empty sequence —
the extractor has no minimum-length rule (the 2-point threshold is enforced
only by the downstream polyline component). Hence a processed record's
`routePath` can have exactly 1 point. -/
theorem formatRoutePath_single_point_cex :
    usablePoint (some ptA) = true ∧
    formatRoutePath routeOnePoint = [(some 33, some 72)] ∧
    formatRoutePath routeOnePoint ≠ [] := by
  refine ⟨by decide, by decide, by decide⟩

/-- C3 (amended): `formatRoutePath` returns exactly the usable points of the
first path-bearing segment, converted in their original order; with exactly
one usable point the result is a singleton (length 1), so a non-empty
`routePath` is not guaranteed to have at least 2 points. -/
theorem formatRoutePath_first_segment (route : Option (List (Option Segment)))
    (pts : List (Option RoutePoint)) (h : FirstPath route pts) :
    formatRoutePath route = (pts.filter usablePoint).map convertOptPoint ∧
    ((pts.filter usablePoint).length = 1 → (formatRoutePath route).length = 1) := by
  have he := formatRoutePath_of_firstPath h
  exact ⟨he, fun h1 => by rw [he, List.length_map, h1]⟩

/-- C3 witness: the two-point route, with a null segment to skip. -/
theorem formatRoutePath_first_segment_witness :
    FirstPath routeTwoPoints [some ptA, some ptB] ∧
    (formatRoutePath routeTwoPoints =
      ([some ptA, some ptB].filter usablePoint).map convertOptPoint ∧
     (([some ptA, some ptB].filter usablePoint).length = 1 →
       (formatRoutePath routeTwoPoints).length = 1)) :=
  ⟨⟨[none], segTwoPoints, [], rfl, by decide, rfl⟩,
   formatRoutePath_first_segment routeTwoPoints [some ptA, some ptB]
     ⟨[none], segTwoPoints, [], rfl, by decide, rfl⟩⟩

/-- A truthy or-chain of two non-string coordinate fields parses to a non-zero
number: JS truthiness on numbers is exactly non-zeroness. -/
lemma parseFloatVal_jsOr_numeric {a b : JsVal}
    (ha : numericVal a = true) (hb : numericVal b = true)
    (ht : (jsOr a b).truthy = true) :
    parseFloatVal (jsOr a b) ≠ some 0 := by
  cases a with
  | str s => simp [numericVal] at ha
  | undef =>
    cases b with
    | str s => simp [numericVal] at hb
    | undef => simp [jsOr, JsVal.truthy] at ht
    | num q =>
      have hq : q ≠ 0 := by simpa [jsOr, JsVal.truthy] using ht
      simp [jsOr, JsVal.truthy, parseFloatVal, hq]
  | num q =>
    by_cases hq : q = 0
    · subst hq
      cases b with
      | str s => simp [numericVal] at hb
      | undef => simp [jsOr, JsVal.truthy] at ht
      | num r =>
        have hr : r ≠ 0 := by simpa [jsOr, JsVal.truthy] using ht
        simp [jsOr, JsVal.truthy, parseFloatVal, hr]
    · simp [jsOr, JsVal.truthy, hq, parseFloatVal]

/-- C10 counterexample: the string "0" is truthy in JS, so a point with
string-typed latitude "0" passes the filter and contributes a coordinate pair
with a zero component — a point on the equator encoded as a string does
appear in the output. -/
theorem routePath_zero_component_cex :
    formatRoutePath routeStrZero = [(some 0, some 5)] ∧
    (some (0 : ℚ), some (5 : ℚ)) ∈ formatRoutePath routeStrZero := by
  refine ⟨by decide, by decide⟩

/-- C10 (amended): when the coordinate fields of the selected segment's points
are numeric (or absent) — never string-typed — every pair in the extracted
`routePath` has both components non-zero, because the truthiness filter drops
exactly the points whose field chain is absent or the number 0. String-typed
fields can defeat this (see the counterexample). -/
theorem routePath_numeric_nonzero (route : Option (List (Option Segment)))
    (pts : List (Option RoutePoint)) (h : FirstPath route pts)
    (hn : ∀ p ∈ pts, numericOptPoint p = true) :
    ∀ pair ∈ formatRoutePath route, pair.1 ≠ some 0 ∧ pair.2 ≠ some 0 := by
  intro pair hmem
  rw [formatRoutePath_of_firstPath h] at hmem
  obtain ⟨p, hpf, rfl⟩ := List.mem_map.mp hmem
  have hpmem := List.mem_filter.mp hpf
  cases p with
  | none => simp [usablePoint] at hpmem
  | some pt =>
    have hnum : numericPoint pt = true := by
      simpa [numericOptPoint] using hn (some pt) hpmem.1
    have husable := hpmem.2
    simp only [usablePoint, Bool.and_eq_true] at husable
    simp only [numericPoint, Bool.and_eq_true] at hnum
    obtain ⟨⟨⟨hn1, hn2⟩, hn3⟩, hn4⟩ := hnum
    refine ⟨?_, ?_⟩
    · simpa [convertOptPoint, convertPoint] using
        parseFloatVal_jsOr_numeric hn1 hn2 husable.1
    · simpa [convertOptPoint, convertPoint] using
        parseFloatVal_jsOr_numeric hn3 hn4 husable.2

/-- C10 witness: the numeric two-point route has only non-zero components. -/
theorem routePath_numeric_nonzero_witness :
    FirstPath routeTwoPoints [some ptA, some ptB] ∧
    (∀ p ∈ [some ptA, some ptB], numericOptPoint p = true) ∧
    ∀ pair ∈ formatRoutePath routeTwoPoints, pair.1 ≠ some 0 ∧ pair.2 ≠ some 0 :=
  ⟨⟨[none], segTwoPoints, [], rfl, by decide, rfl⟩, by decide,
   routePath_numeric_nonzero routeTwoPoints [some ptA, some ptB]
     ⟨[none], segTwoPoints, [], rfl, by decide, rfl⟩ (by decide)⟩

/-- `handleShuttleSelect` sends any state to a state satisfying the
nearest/selected invariant. -/
lemma handleShuttleSelect_invariant (id : Option String) (st : SelectionState) :
    (handleShuttleSelect id st).nearestId = none ∨
      (handleShuttleSelect id st).nearestId = (handleShuttleSelect id st).selectedId := by
  by_cases h1 : id = st.selectedId
  · left
    simp [handleShuttleSelect, h1]
  · by_cases h2 : id ≠ st.nearestId
    · left
      simp [handleShuttleSelect, h1, h2]
    · right
      push_neg at h2
      rw [h2] at h1 ⊢
      simp [handleShuttleSelect, h1]

/-- Any outcome of `handleFindNearest` preserves the invariant: failure and
the silent case leave the state unchanged, success sets both ids equal. -/
lemma handleFindNearest_invariant {α : Type} [LinearOrder α]
    (dist : ProcessedShuttle → α) (shuttles : List ProcessedShuttle)
    (st : SelectionState)
    (h : st.nearestId = none ∨ st.nearestId = st.selectedId) :
    (handleFindNearest dist shuttles st).2.nearestId = none ∨
      (handleFindNearest dist shuttles st).2.nearestId =
        (handleFindNearest dist shuttles st).2.selectedId := by
  unfold handleFindNearest
  by_cases he : (shuttles.filter (·.isActive)).isEmpty
  · simpa [he] using h
  · simp only [he, Bool.false_eq_true, if_false]
    cases nearestLoop dist (shuttles.filter (·.isActive)) none with
    | none => simpa using h
    | some p => right; rfl

/-- C6: in every reachable selection state, `nearestShuttleId` is unset or
equal to `selectedShuttleId`; the invariant holds initially and is preserved
by toggling selection, background deselection, and nearest-vehicle search. -/
theorem selection_nearest_invariant (st : SelectionState) (h : Reachable st) :
    st.nearestId = none ∨ st.nearestId = st.selectedId := by
  induction h with
  | init => left; rfl
  | select id _ _ => exact handleShuttleSelect_invariant id _
  | mapClick _ ih =>
    rename_i st0 _
    unfold handleMapClick
    cases hsel : st0.selectedId with
    | none => simpa using ih
    | some s =>
      by_cases hs : s ≠ ""
      · simpa [hs] using handleShuttleSelect_invariant none st0
      · simpa [hs] using ih
  | findNearest uLat uLng shuttles _ ih =>
    exact handleFindNearest_invariant _ shuttles _ ih

/-- C6 witness: the invariant at a concrete reachable state (one selection
click from the initial state). -/
theorem selection_nearest_invariant_witness :
    (handleShuttleSelect (some "s1") initialSelection).nearestId = none ∨
      (handleShuttleSelect (some "s1") initialSelection).nearestId =
        (handleShuttleSelect (some "s1") initialSelection).selectedId :=
  selection_nearest_invariant _ (Reachable.select (some "s1") Reachable.init)

/-- C1: when some active record has a valid (non-zero) position, the search
computes the haversine `calculateDistance` from the user position to each such
candidate and selects the leftmost minimum — the closest candidate, ties
broken by the first encountered in snapshot order (the loop replaces the best
only on a strictly smaller distance; the function is pure, hence stable across
calls with identical input) — and sets both `selectedShuttleId` and
`nearestShuttleId` to its id. -/
theorem findNearest_selects_nearest (uLat uLng : ℝ)
    (shuttles : List ProcessedShuttle) (st : SelectionState)
    (hne : shuttles.filter (fun s => s.isActive && validPosition s) ≠ []) :
    ∃ c, IsLeftmostMin (shuttleDistance uLat uLng)
        (shuttles.filter (fun s => s.isActive && validPosition s)) c ∧
      handleFindNearest (shuttleDistance uLat uLng) shuttles st =
        (FindResult.selected c.base.id,
         { selectedId := some c.base.id, nearestId := some c.base.id }) := by
  rcases hcex : shuttles.filter (fun s => s.isActive && validPosition s) with _ | ⟨b, rest⟩
  · exact absurd hcex hne
  · have hfil : (shuttles.filter (·.isActive)).filter validPosition = b :: rest := by
      rw [active_valid_filter]
      exact hcex
    have hie : (shuttles.filter (·.isActive)).isEmpty = false := by
      cases hh : shuttles.filter (·.isActive) with
      | nil => rw [hh] at hfil; simp at hfil
      | cons x xs => rfl
    refine ⟨pickMin (shuttleDistance uLat uLng) b rest, ⟨?_, ?_⟩, ?_⟩
    · obtain ⟨pre, post, heq, hpre⟩ :=
        pickMin_leftmost (shuttleDistance uLat uLng) rest b
      exact ⟨pre, post, by rw [hcex]; exact heq, hpre⟩
    · intro x hx
      rw [hcex] at hx
      rcases List.mem_cons.mp hx with h | hx
      · rw [h]
        exact (pickMin_le (shuttleDistance uLat uLng) rest b).1
      · exact (pickMin_le (shuttleDistance uLat uLng) rest b).2 x hx
    · simp only [handleFindNearest, hie, Bool.false_eq_true, if_false]
      rw [nearestLoop_none, hfil]
      rfl

/-- C1 witness: a single-candidate snapshot; the candidate set is non-empty
and the search selects it. -/
theorem findNearest_selects_nearest_witness :
    [pS1].filter (fun s => s.isActive && validPosition s) ≠ [] ∧
    ∃ c, IsLeftmostMin (shuttleDistance 33 72)
        ([pS1].filter (fun s => s.isActive && validPosition s)) c ∧
      handleFindNearest (shuttleDistance 33 72) [pS1] initialSelection =
        (FindResult.selected c.base.id,
         { selectedId := some c.base.id, nearestId := some c.base.id }) :=
  ⟨by decide, findNearest_selects_nearest 33 72 [pS1] initialSelection (by decide)⟩

/-- C4 counterexample: a snapshot whose only record is active but sits at the
invalid position (0,0). The claimed candidate set (active with valid position)
is empty, yet the search does not fail with the no-active-vehicles error: the
early error check tests only activity, and the run falls through silently with
the selection state unchanged. -/
theorem findNearest_noActive_cex :
    pOrigin.isActive = true ∧
    [pOrigin].filter (fun s => s.isActive && validPosition s) = [] ∧
    (handleFindNearest (fun _ => (0 : ℚ)) [pOrigin] initialSelection).1 ≠
      FindResult.noActiveAlert ∧
    handleFindNearest (fun _ => (0 : ℚ)) [pOrigin] initialSelection =
      (FindResult.noCandidate, initialSelection) := by
  refine ⟨by decide, by decide, by decide, by decide⟩

/-- C4 (amended): the search fails with the no-active-vehicles error exactly
when the set of active records is empty — the valid-position requirement is
not part of this emptiness check; when active records exist but none has a
valid position, the run completes silently with no error. In both cases
`selectedShuttleId` and `nearestShuttleId` are left unchanged. -/
theorem findNearest_alert_iff_no_active {α : Type} [LinearOrder α]
    (dist : ProcessedShuttle → α) (shuttles : List ProcessedShuttle)
    (st : SelectionState) :
    (handleFindNearest dist shuttles st = (FindResult.noActiveAlert, st) ↔
      shuttles.filter (·.isActive) = []) ∧
    (shuttles.filter (·.isActive) ≠ [] →
      shuttles.filter (fun s => s.isActive && validPosition s) = [] →
      handleFindNearest dist shuttles st = (FindResult.noCandidate, st)) := by
  constructor
  · constructor
    · intro h
      by_contra hne
      have hie : (shuttles.filter (·.isActive)).isEmpty = false := by
        cases hh : shuttles.filter (·.isActive) with
        | nil => exact absurd hh hne
        | cons x xs => rfl
      simp only [handleFindNearest, hie, Bool.false_eq_true, if_false] at h
      cases hl : nearestLoop dist (shuttles.filter (·.isActive)) none with
      | some p =>
        rw [hl] at h
        cases p
        simp at h
      | none =>
        rw [hl] at h
        simp at h
    · intro h
      have hie : (shuttles.filter (·.isActive)).isEmpty = true := by
        rw [h]
        rfl
      simp [handleFindNearest, hie]
  · intro hne hcand
    have hie : (shuttles.filter (·.isActive)).isEmpty = false := by
      cases hh : shuttles.filter (·.isActive) with
      | nil => exact absurd hh hne
      | cons x xs => rfl
    have hfil : (shuttles.filter (·.isActive)).filter validPosition = [] := by
      rw [active_valid_filter]
      exact hcand
    simp only [handleFindNearest, hie, Bool.false_eq_true, if_false]
    rw [nearestLoop_none, hfil]
    rfl

/-- C4 witness: both directions at concrete inputs — the empty snapshot fails
with the error and state unchanged; the active-at-origin snapshot is a silent
no-op with state unchanged. -/
theorem findNearest_alert_iff_no_active_witness :
    handleFindNearest (fun _ => (0 : ℚ)) [] initialSelection =
      (FindResult.noActiveAlert, initialSelection) ∧
    ([pOrigin].filter (·.isActive) ≠ [] ∧
     [pOrigin].filter (fun s => s.isActive && validPosition s) = [] ∧
     handleFindNearest (fun _ => (0 : ℚ)) [pOrigin] initialSelection =
       (FindResult.noCandidate, initialSelection)) :=
  ⟨(findNearest_alert_iff_no_active (fun _ => (0 : ℚ)) [] initialSelection).1.mpr rfl,
   by decide, by decide,
   (findNearest_alert_iff_no_active (fun _ => (0 : ℚ)) [pOrigin] initialSelection).2
     (by decide) (by decide)⟩

end NustShuttles
